import Mathlib

/-!
Verification of the school/district search core of the repository
(`src/utils/maps.ts` and `src/components/Home.tsx`), shallowly embedded in Lean.

JavaScript values are modelled by `JSValue`; property access on `null`/`undefined`
throws (modelled by `Option`), objects and arrays compare by reference
(modelled by a `ref` tag), and truthiness follows JavaScript rules for the
constructors we model (no `NaN`, `±0` distinctions, and integer numerics only —
no float arithmetic occurs anywhere in the translated code).
-/

namespace NCES

/-- A JavaScript value.  `obj`/`arr` carry a reference tag used for strict
equality (`===`), which never inspects object contents. -/
inductive JSValue where
  | undefined
  | null
  | bool (b : Bool)
  | num (n : Int)
  | str (s : String)
  | arr (ref : Nat) (elems : List JSValue)
  | obj (ref : Nat) (fields : List (String × JSValue))
  deriving Repr

/-- JavaScript truthiness. -/
def truthy : JSValue → Bool
  | .undefined => false
  | .null => false
  | .bool b => b
  | .num n => n != 0
  | .str s => s != ""
  | .arr _ _ => true
  | .obj _ _ => true

/-- `a || b` (value-returning logical or). -/
def jsOr (a b : JSValue) : JSValue :=
  if truthy a then a else b

/-- Strict equality `===`: primitives by value, objects and arrays by reference. -/
def jsEq : JSValue → JSValue → Bool
  | .undefined, .undefined => true
  | .null, .null => true
  | .bool a, .bool b => a == b
  | .num a, .num b => a == b
  | .str a, .str b => a == b
  | .arr r _, .arr r' _ => r == r'
  | .obj r _, .obj r' _ => r == r'
  | _, _ => false

/-- Property access `a.k`.  Throws (`none`) on `null`/`undefined` receivers;
yields `undefined` for missing fields and for primitive receivers. -/
def getField : JSValue → String → Option JSValue
  | .undefined, _ => none
  | .null, _ => none
  | .bool _, _ => some .undefined
  | .num _, _ => some .undefined
  | .str _, _ => some .undefined
  | .arr _ _, _ => some .undefined
  | .obj _ fields, k => some ((fields.lookup k).getD .undefined)

/-- String coercion as used by template literals (`District ${x}`). -/
def jsToString : JSValue → String
  | .undefined => "undefined"
  | .null => "null"
  | .bool b => cond b "true" "false"
  | .num n => toString n
  | .str s => s
  | .obj _ _ => "[object Object]"
  | .arr _ elems => String.intercalate "," (elems.attach.map (fun ⟨v, hv⟩ =>
      match v with
      | .undefined => ""
      | .null => ""
      | w => jsToString w))
termination_by v => sizeOf v
decreasing_by
  all_goals
    simp_wf
    have := List.sizeOf_lt_of_mem hv
    omega

/-- JavaScript `String.prototype.trim`: strip leading and trailing whitespace.
(Defined directly over the character list so that it is kernel-computable;
`String.trim` of core Lean is extensionally the same function.) -/
def jsTrim (s : String) : String :=
  String.mk (((s.data.dropWhile Char.isWhitespace).reverse.dropWhile
    Char.isWhitespace).reverse)

/-- Chained fallback access `a.k1 || a.k2 || ... || a.kn` (value of the last
field if all are falsy).  Throws exactly when `a` is `null`/`undefined`. -/
def getChain (a : JSValue) : List String → Option JSValue
  | [] => some .undefined
  | k :: ks => do
    let v ← getField a k
    match ks with
    | [] => pure v
    | _ :: _ => if truthy v then pure v else getChain a ks

/-- Chained fallback access with a final default: `a.k1 || ... || a.kn || d`. -/
def chainD (a : JSValue) (ks : List String) (d : JSValue) : Option JSValue := do
  let v ← getChain a ks
  pure (jsOr v d)

/-- Total property access, valid for non-nullish receivers (`getField` agrees
with it there). -/
def fieldOf (a : JSValue) (k : String) : JSValue :=
  (getField a k).getD .undefined

/-- Total version of `getChain`, valid for non-nullish receivers. -/
def chainVal (a : JSValue) : List String → JSValue
  | [] => .undefined
  | k :: ks =>
    let v := fieldOf a k
    match ks with
    | [] => v
    | _ :: _ => if truthy v then v else chainVal a ks

/-- `src/utils/maps.ts` lines 11–27: the canonical school record shape.
Every field holds the raw JavaScript value the normalizer assigned. -/
structure NCESSchoolFeatureAttributes where
  NCESSCH : JSValue
  LEAID : JSValue
  NAME : JSValue
  OPSTFIPS : JSValue
  STREET : JSValue
  CITY : JSValue
  STATE : JSValue
  ZIP : JSValue
  CNTY : JSValue
  NMCNTY : JSValue
  LOCALE : JSValue
  LAT : JSValue
  LON : JSValue
  OBJECTID : JSValue
  deriving Repr

/-- `src/utils/maps.ts` lines 29–45: the canonical district record shape. -/
structure NCESDistrictFeatureAttributes where
  OBJECTID : JSValue
  LEAID : JSValue
  NAME : JSValue
  LSTREE : JSValue
  LCITY : JSValue
  LSTATE : JSValue
  LZIP : JSValue
  LZIP4 : JSValue
  STFIP15 : JSValue
  CNTY15 : JSValue
  NMCNTY15 : JSValue
  LAT1516 : JSValue
  LON1516 : JSValue
  ST : JSValue
  deriving Repr

/-- `src/utils/maps.ts` lines 47–72 (`normalizeSchoolAttributes`).  Property
access on `a` throws a `TypeError` exactly when `a` is `null`/`undefined`
(result `none`); `geometry` is only accessed when it is truthy, hence
non-nullish.  Field-by-field transcription of the source. -/
def normalizeSchoolAttributes (a : JSValue) (geometry : JSValue) :
    Option NCESSchoolFeatureAttributes := do
  let vNAME ← chainD a ["NAME", "SCH_NAME", "SCHOOL_NAME", "SchoolName", "NAME_"] (.str "")
  let vSTREET ← chainD a ["STREET", "MAIL_STREET", "LSTREET1", "ADDRESS", "LSTREET"] (.str "")
  let vCITY ← chainD a ["CITY", "MAIL_CITY", "LCITY", "TOWN"] (.str "")
  let vSTATE ← chainD a ["STATE", "ST", "MAIL_STATE", "LSTATE"] (.str "")
  let vZIP ← chainD a ["ZIP", "MAIL_ZIP", "LZIP", "POSTAL", "ZIP_CODE"] (.str "")
  let vNCESSCH ← chainD a ["NCESSCH", "SCHID", "NCES_ID", "NCES"] (.str "")
  let vLEAID ← chainD a ["LEAID", "LEA_ID", "LEA"] (.str "")
  let vOBJECTID ← getChain a ["OBJECTID", "OBJECT_ID"]
  let lat0 ← getChain a ["LAT", "Y", "lat", "latitude"]
  let lon0 ← getChain a ["LON", "X", "lon", "longitude"]
  let coords ←
    if (!truthy lat0 || !truthy lon0) && truthy geometry then do
      let gy ← getField geometry "y"
      let gx ← getField geometry "x"
      pure (jsOr gy lat0, jsOr gx lon0)
    else
      pure (lat0, lon0)
  let vOPSTFIPS ← getChain a ["OPSTFIPS", "STFIP"]
  let vCNTY ← getChain a ["CNTY", "COUNTY"]
  let vNMCNTY ← getChain a ["NMCNTY", "COUNTYNAME"]
  let vLOCALE ← getField a "LOCALE"
  pure
    { NAME := vNAME, STREET := vSTREET, CITY := vCITY, STATE := vSTATE, ZIP := vZIP,
      NCESSCH := vNCESSCH, LEAID := vLEAID, OBJECTID := vOBJECTID,
      LAT := coords.1, LON := coords.2,
      OPSTFIPS := vOPSTFIPS, CNTY := vCNTY, NMCNTY := vNMCNTY, LOCALE := vLOCALE }

/-- `src/utils/maps.ts` lines 74–93 (`normalizeDistrictAttributes`).
The `NAME` fallback is the template literal `District ${a.LEAID || 'Unknown'}`. -/
def normalizeDistrictAttributes (a : JSValue) :
    Option NCESDistrictFeatureAttributes := do
  let vOBJECTID ← getChain a ["OBJECTID", "OBJECT_ID"]
  let vLEAID ← chainD a ["LEAID", "LEA_ID", "LEA"] (.str "")
  let rawLEAID ← getField a "LEAID"
  let vNAME ← chainD a ["DISTRICT", "LEA_NAME", "LEANM"]
    (.str ("District " ++ jsToString (jsOr rawLEAID (.str "Unknown"))))
  let vLSTREE ← chainD a ["LSTREE", "LSTREET", "STREET"] (.str "")
  let vLCITY ← chainD a ["LCITY", "CITY"] (.str "")
  let vLSTATE ← chainD a ["LSTATE", "STATE", "ST"] (.str "")
  let vLZIP ← chainD a ["LZIP", "ZIP"] (.str "")
  let vLZIP4 ← getField a "LZIP4"
  let vST ← chainD a ["LSTATE", "ST", "STATE", "STATE_CODE"] (.str "")
  let vLAT1516 ← getChain a ["LAT1516", "LAT", "latitude"]
  let vLON1516 ← getChain a ["LON1516", "LON", "longitude"]
  let vSTFIP15 ← getChain a ["STFIP15", "STFIP"]
  let vCNTY15 ← getChain a ["CNTY15", "CNTY"]
  let vNMCNTY15 ← getChain a ["NMCNTY15", "NMCNTY"]
  pure
    { OBJECTID := vOBJECTID, LEAID := vLEAID, NAME := vNAME, LSTREE := vLSTREE,
      LCITY := vLCITY, LSTATE := vLSTATE, LZIP := vLZIP, LZIP4 := vLZIP4,
      ST := vST, LAT1516 := vLAT1516, LON1516 := vLON1516,
      STFIP15 := vSTFIP15, CNTY15 := vCNTY15, NMCNTY15 := vNMCNTY15 }

/-! ### The query executor (`searchSchoolDistricts`, `searchSchools`)

Each function issues one request per upstream source (private / public).  The
network is abstracted by a per-source `FetchOutcome`; the `Request` values a
call would issue are returned alongside the result so that "no network call is
made" is expressible. -/

inductive Source where
  | priv
  | pub
  deriving DecidableEq, Repr

/-- One upstream request: which catalog, the ArcGIS `where` clause, and the
`resultRecordCount` cap. -/
structure Request where
  source : Source
  whereClause : String
  resultRecordCount : Nat
  deriving DecidableEq, Repr

/-- Outcome of one `fetch`:
* `success body` — `ok` response whose parsed JSON body is `body`;
* `httpError` — response with a non-success status (`ok` is `false`);
* `networkError` — the fetch promise rejected with an ordinary error;
* `abortError` — the fetch promise rejected because the `AbortSignal` fired.

In the source both rejections are caught by `.catch(() => ({ ok: false }))`,
so they are handled exactly like a non-success response. -/
inductive FetchOutcome where
  | success (body : JSValue)
  | httpError
  | networkError
  | abortError
  deriving Repr

/-- `res.ok ? await res.json() : { features: [] }` followed by
`Array.isArray(json.features) ? json.features : []`.  Throws (`none`) when the
parsed body is `null` (then `json.features` raises). -/
def featuresOf : FetchOutcome → Option (List JSValue)
  | .success body => do
    let fs ← getField body "features"
    match fs with
    | .arr _ elems => pure elems
    | _ => pure []
  | .httpError => pure []
  | .networkError => pure []
  | .abortError => pure []

/-- `src/utils/maps.ts` lines 131–139: the `forEach` that fills `districtMap`
(a `Map`, modelled as an association list in insertion order). -/
def buildDistrictMap :
    List JSValue → List (JSValue × NCESDistrictFeatureAttributes) →
    Option (List (JSValue × NCESDistrictFeatureAttributes))
  | [], m => pure m
  | f :: fs, m => do
    let fAttrs ← getField f "attributes"
    let attrs := jsOr fAttrs f
    let leaId ← getChain attrs ["LEAID", "LEA_ID", "LEA"]
    if truthy leaId && !(m.any (fun p => jsEq p.1 leaId)) then do
      let d ← normalizeDistrictAttributes attrs
      buildDistrictMap fs (m ++ [(leaId, d)])
    else
      buildDistrictMap fs m

/-- Sort key of the final district sort: `(a.NAME || '')` coerced to a string.
The source's locale-aware `localeCompare` is modelled as code-point order. -/
def districtSortKey (d : NCESDistrictFeatureAttributes) : String :=
  jsToString (jsOr d.NAME (.str ""))

/-- Stable insertion used to model the (stable) `Array.prototype.sort`. -/
def insertDistrict (d : NCESDistrictFeatureAttributes) :
    List NCESDistrictFeatureAttributes → List NCESDistrictFeatureAttributes
  | [] => [d]
  | x :: xs =>
    if districtSortKey x < districtSortKey d then x :: insertDistrict d xs
    else d :: x :: xs

/-- `.sort((a, b) => (a.NAME || '').localeCompare(b.NAME || ''))`, modelled as
the (unique) stable sort by `districtSortKey`. -/
def sortDistricts : List NCESDistrictFeatureAttributes → List NCESDistrictFeatureAttributes
  | [] => []
  | d :: ds => insertDistrict d (sortDistricts ds)

/-- The `try` body of `searchSchoolDistricts` after the two fetches: merge,
normalize into `districtMap`, sort.  `none` models a thrown error, handed to
the surrounding `catch`. -/
def searchSchoolDistrictsBody (opriv opub : FetchOutcome) :
    Option (List NCESDistrictFeatureAttributes) := do
  let privFeatures ← featuresOf opriv
  let pubFeatures ← featuresOf opub
  let m ← buildDistrictMap (privFeatures ++ pubFeatures) []
  pure (sortDistricts (m.map Prod.snd))

/-- `src/utils/maps.ts` lines 95–153 (`searchSchoolDistricts`).  Returns the
result list together with the upstream requests the call issues.  The
surrounding `try`/`catch` turns any thrown error into `[]` (the `AbortError`
test there only suppresses logging). -/
def searchSchoolDistricts (name : String) (opriv opub : FetchOutcome) :
    List NCESDistrictFeatureAttributes × List Request :=
  if name = "" ∨ (jsTrim name).length < 2 then
    ([], [])
  else
    let whereClause := "UPPER(NAME) LIKE UPPER('%" ++ jsTrim name ++ "%')"
    let reqs : List Request :=
      [⟨.priv, whereClause, 500⟩, ⟨.pub, whereClause, 500⟩]
    ((searchSchoolDistrictsBody opriv opub).getD [], reqs)

/-- `src/utils/maps.ts` lines 162–173: the `where` clause of a school query.
The text filter applies only when the trimmed query is truthy and of length
at least 2; a truthy district id appends an `AND LEAID = '...'` conjunct. -/
def schoolWhereClause (name : String) (districtLEAID : Option String) : String :=
  let nameQuery := jsTrim name
  let base :=
    if nameQuery != "" && nameQuery.length ≥ 2 then
      "UPPER(NAME) LIKE UPPER('%" ++ nameQuery ++ "%')"
    else
      "1=1"
  match districtLEAID with
  | some d => if d != "" then base ++ " AND LEAID = '" ++ d ++ "'" else base
  | none => base

/-- The duplicate test `searchSchools` uses for a fixed record `s`: candidates
`t` match by identifier when `s` has a truthy `NCESSCH`, else by
name + city + state (`src/utils/maps.ts` lines 194–203). -/
def dupPred (s t : NCESSchoolFeatureAttributes) : Bool :=
  if truthy s.NCESSCH then
    jsEq t.NCESSCH s.NCESSCH
  else
    jsEq t.NAME s.NAME && jsEq t.CITY s.CITY && jsEq t.STATE s.STATE

/-- The `filter((school, index, self) => ...)` deduplication: keep a record iff
the first index matching its duplicate test is its own index. -/
def dedupSchools (l : List NCESSchoolFeatureAttributes) :
    List NCESSchoolFeatureAttributes :=
  ((l.enum.filter (fun p => l.findIdx (dupPred p.2) == p.1)).map Prod.snd)

/-- `normalizeSchoolAttributes(f.attributes || f, f.geometry)` for one raw
feature `f` (throws when `f` is nullish). -/
def normalizeFeature (f : JSValue) : Option NCESSchoolFeatureAttributes := do
  let fAttrs ← getField f "attributes"
  let fGeom ← getField f "geometry"
  normalizeSchoolAttributes (jsOr fAttrs f) fGeom

/-- The `try` body of `searchSchools` after the two fetches: concatenate,
normalize (geometry-aware), deduplicate.  `none` models a thrown error. -/
def searchSchoolsBody (opriv opub : FetchOutcome) :
    Option (List NCESSchoolFeatureAttributes) := do
  let privFeatures ← featuresOf opriv
  let pubFeatures ← featuresOf opub
  let normalized ← (privFeatures ++ pubFeatures).mapM normalizeFeature
  pure (dedupSchools normalized)

/-- `src/utils/maps.ts` lines 155–211 (`searchSchools`).  No short-query early
return: a sub-minimum query just degrades the `where` clause to `1=1`.  The
result list is the deduplicated normalization of both sources' features; the
issued requests are returned alongside. -/
def searchSchools (name : String) (districtLEAID : Option String)
    (opriv opub : FetchOutcome) :
    List NCESSchoolFeatureAttributes × List Request :=
  let whereClause := schoolWhereClause name districtLEAID
  let reqs : List Request :=
    [⟨.priv, whereClause, 100⟩, ⟨.pub, whereClause, 100⟩]
  ((searchSchoolsBody opriv opub).getD [], reqs)

/-! ### The debounced search controller (`src/components/Home.tsx`)

The school-field pipeline of the `Home` component, as far as the claims need
it: the result list, the `schoolCache` ref (a string-keyed record), the school
selection, and the per-query `AbortController` tokens.  React's single-threaded
event loop is modelled as a sequence of events folded over the state. -/

/-- `schoolCache.current[cacheKey] = res`: record assignment (overwrite). -/
def cacheInsert (k : String) (v : List NCESSchoolFeatureAttributes)
    (c : List (String × List NCESSchoolFeatureAttributes)) :
    List (String × List NCESSchoolFeatureAttributes) :=
  (k, v) :: c.filter (fun p => !(p.1 == k))

/-- `Home.tsx` lines 118–121: the `res.find(...)` test deciding whether the
previously selected school is still visible in a fresh result list. -/
def stillExistsMatch (sel s : NCESSchoolFeatureAttributes) : Bool :=
  jsEq s.NCESSCH sel.NCESSCH ||
    (jsEq s.NAME sel.NAME && jsEq s.CITY sel.CITY)

/-- `Home.tsx` lines 117–125: after a school fetch resolves with `res`, the
selection is cleared unless some record of `res` passes `stillExistsMatch`. -/
def applySchoolFetchSelection (sel : Option NCESSchoolFeatureAttributes)
    (res : List NCESSchoolFeatureAttributes) :
    Option NCESSchoolFeatureAttributes :=
  match sel with
  | none => none
  | some sc => if res.any (stillExistsMatch sc) then some sc else none

/-- School-field slice of the `Home` component state.  `aborted` is the set of
token ids whose `AbortController.abort()` has been called; `activeToken` is the
token of the most recently issued school query. -/
structure SchoolQueryState where
  schools : List NCESSchoolFeatureAttributes
  schoolCache : List (String × List NCESSchoolFeatureAttributes)
  selectedSchool : Option NCESSchoolFeatureAttributes
  activeToken : Option Nat
  aborted : List Nat
  deriving Repr

/-- Events of the school-query pipeline:
* `start t key` — the school effect re-runs: the cleanup of the previous run
  aborts its controller, then a new query with token `t` is issued for cache
  key `key` (`Home.tsx` lines 109–134);
* `settle t key payload` — the `searchSchools` promise of query `t` resolves.
  `payload` is what the network produced; if `t` was aborted the promise still
  RESOLVES, with `[]` (inside `searchSchools` the rejected fetches are caught
  and replaced by `{ ok: false }`), so the `.then` handler runs either way. -/
inductive SchoolEvent where
  | start (t : Nat) (key : String)
  | settle (t : Nat) (key : String) (payload : List NCESSchoolFeatureAttributes)

/-- One controller step.  In `settle`, the `.then` handler of `Home.tsx` lines
113–126 applies the resolved value unconditionally: `setSchools(res)`, the
cache write, and the selection reconciliation.  The `.catch` with the
`AbortError` test never fires, because `searchSchools` never rejects.  (The
selection the handler compares against is modelled as the current one; the
effect re-runs whenever the selection changes, aborting the previous query.) -/
def schoolStep (st : SchoolQueryState) : SchoolEvent → SchoolQueryState
  | .start t _ =>
    { st with
      aborted := match st.activeToken with
        | some t' => t' :: st.aborted
        | none => st.aborted,
      activeToken := some t }
  | .settle t key payload =>
    let res := if st.aborted.contains t then [] else payload
    { st with
      schools := res,
      schoolCache := cacheInsert key res st.schoolCache,
      selectedSchool := applySchoolFetchSelection st.selectedSchool res }

/-- Fold a sequence of school-pipeline events over a state. -/
def runSchoolEvents (st : SchoolQueryState) (es : List SchoolEvent) :
    SchoolQueryState :=
  es.foldl schoolStep st

/-- State consumed by `handleDistrictChange`. -/
structure HomeState where
  districts : List NCESDistrictFeatureAttributes
  selectedDistrict : Option NCESDistrictFeatureAttributes
  selectedSchool : Option NCESSchoolFeatureAttributes
  schoolCache : List (String × List NCESSchoolFeatureAttributes)
  debouncedSchoolQuery : String
  deriving Repr

/-- The cache key `handleDistrictChange` deletes:
`` `${leaId || "all"}-${currentQuery}` `` — built from the NEWLY chosen
district id and the current trimmed school text. -/
def newSchoolCacheKey (st : HomeState) (leaId : String) : String :=
  (if leaId = "" then "all" else leaId) ++ "-" ++ jsTrim st.debouncedSchoolQuery

/-- `Home.tsx` lines 138–156 (`handleDistrictChange`): set the selected
district from the chosen `LEAID` (or clear it), clear the school selection
unconditionally, and delete the school-cache entry under the new-filter key
when present. -/
def handleDistrictChange (st : HomeState) (leaId : String) : HomeState :=
  let sel :=
    if leaId = "" then none
    else st.districts.find? (fun d => jsEq d.LEAID (.str leaId))
  let key := newSchoolCacheKey st leaId
  { st with
    selectedDistrict := sel,
    selectedSchool := none,
    schoolCache :=
      if (st.schoolCache.lookup key).isSome then
        st.schoolCache.filter (fun p => !(p.1 == key))
      else
        st.schoolCache }

/-! ### Spec-side definitions

These transcribe the *claims'* wording (not the code) and are compared with
the embedded code in the refinement-style theorems below. -/

/-- Spec-side district-name resolution: the first present, truthy source name
field among `DISTRICT`, `LEA_NAME`, `LEANM`; otherwise the synthesized label
built from the raw `LEAID` attribute when that is truthy, else `"Unknown"`. -/
def districtNameSpec (a : JSValue) : JSValue :=
  match [fieldOf a "DISTRICT", fieldOf a "LEA_NAME", fieldOf a "LEANM"].find? truthy with
  | some v => v
  | none =>
    .str ("District " ++
      (if truthy (fieldOf a "LEAID") then jsToString (fieldOf a "LEAID") else "Unknown"))

/-- Spec-side matcher of claim C6: a result record `s` matches the selection
by identifier when the selection has one, else by name + city. -/
def claimMatch (sel s : NCESSchoolFeatureAttributes) : Bool :=
  if truthy sel.NCESSCH then jsEq s.NCESSCH sel.NCESSCH
  else jsEq s.NAME sel.NAME && jsEq s.CITY sel.CITY

/-- Spec-side latitude/longitude resolution (claim C8 as amended): attribute
fields first; when both are truthy, or no truthy geometry is supplied, they
stand; otherwise BOTH coordinates take the geometry's `y`/`x` when truthy,
each falling back to its attribute value. -/
def latlonSpec (a g : JSValue) : JSValue × JSValue :=
  let lat0 := chainVal a ["LAT", "Y", "lat", "latitude"]
  let lon0 := chainVal a ["LON", "X", "lon", "longitude"]
  if (truthy lat0 && truthy lon0) || !truthy g then (lat0, lon0)
  else (jsOr (fieldOf g "y") lat0, jsOr (fieldOf g "x") lon0)

/-! ### Helper lemmas -/

theorem getField_of_ne {a : JSValue} (ha : a ≠ .null) (hb : a ≠ .undefined)
    (k : String) : getField a k = some (fieldOf a k) := by
  cases a <;> simp_all [getField, fieldOf]

theorem ne_null_of_truthy {g : JSValue} (h : truthy g = true) : g ≠ .null := by
  intro e
  subst e
  simp [truthy] at h

theorem ne_undef_of_truthy {g : JSValue} (h : truthy g = true) : g ≠ .undefined := by
  intro e
  subst e
  simp [truthy] at h

theorem getChain_of_ne {a : JSValue} (ha : a ≠ .null) (hb : a ≠ .undefined) :
    ∀ ks : List String, getChain a ks = some (chainVal a ks) := by
  intro ks
  induction ks with
  | nil => rfl
  | cons k ks ih =>
    cases ks with
    | nil => simp [getChain, chainVal, getField_of_ne ha hb k]
    | cons k2 ks2 =>
      have e1 : getChain a (k :: k2 :: ks2) =
          ((getField a k).bind fun v =>
            if truthy v then some v else getChain a (k2 :: ks2)) := rfl
      have e2 : chainVal a (k :: k2 :: ks2) =
          (if truthy (fieldOf a k) then fieldOf a k
           else chainVal a (k2 :: ks2)) := rfl
      rw [e1, e2, getField_of_ne ha hb k, Option.some_bind]
      by_cases h : truthy (fieldOf a k) = true
      · rw [if_pos h, if_pos h]
      · rw [if_neg h, if_neg h, ih]

theorem chainD_of_ne {a : JSValue} (ha : a ≠ .null) (hb : a ≠ .undefined)
    (ks : List String) (d : JSValue) :
    chainD a ks d = some (jsOr (chainVal a ks) d) := by
  simp [chainD, getChain_of_ne ha hb]

theorem lookup_filter_self {β : Type} (k : String) (l : List (String × β)) :
    (l.filter (fun p => !(p.1 == k))).lookup k = none := by
  induction l with
  | nil => rfl
  | cons p l ih =>
    by_cases h : p.1 = k
    · simp [List.filter_cons, h, ih]
    · have h1 : (p.1 == k) = false := by simpa using h
      have h2 : (k == p.1) = false := by simpa using Ne.symm h
      simp [List.filter_cons, h1, List.lookup, h2, ih]

theorem filter_eq_of_lookup_none {β : Type} {k : String}
    {l : List (String × β)} (h : l.lookup k = none) :
    l.filter (fun p => !(p.1 == k)) = l := by
  induction l with
  | nil => rfl
  | cons p l ih =>
    rw [List.lookup] at h
    by_cases h2 : k = p.1
    · simp [h2] at h
    · have h3 : (k == p.1) = false := by simpa using h2
      have h4 : (p.1 == k) = false := by simpa using Ne.symm h2
      rw [h3] at h
      simp only [List.filter_cons, h4, Bool.not_false, if_pos, ih h]

theorem pairwise_fst_lt_enumFrom {α : Type} (l : List α) :
    ∀ n : Nat, (l.enumFrom n).Pairwise (fun p q => p.1 < q.1) := by
  induction l with
  | nil => intro n; simp
  | cons x xs ih =>
    intro n
    simp only [List.enumFrom_cons]
    refine List.Pairwise.cons ?_ (ih (n + 1))
    intro q hq
    obtain ⟨i, y⟩ := q
    have := (List.mk_mem_enumFrom_iff_le_and_getElem?_sub.1 hq).1
    omega

theorem pairwise_fst_lt_enum {α : Type} (l : List α) :
    l.enum.Pairwise (fun p q => p.1 < q.1) :=
  pairwise_fst_lt_enumFrom l 0

/-- Core property of the index-based duplicate filter: in the output, no
earlier record satisfies the duplicate test of any later record. -/
theorem dedupSchools_pairwise (l : List NCESSchoolFeatureAttributes) :
    (dedupSchools l).Pairwise (fun a b => dupPred b a = false) := by
  unfold dedupSchools
  rw [List.pairwise_map]
  have h1 : (l.enum.filter fun p => l.findIdx (dupPred p.2) == p.1).Pairwise
      (fun p q => p.1 < q.1) :=
    List.Pairwise.sublist (List.filter_sublist _) (pairwise_fst_lt_enum l)
  refine List.Pairwise.imp_of_mem ?_ h1
  intro p q hp hq hlt
  obtain ⟨hp1, _⟩ := List.mem_filter.1 hp
  obtain ⟨_, hq2⟩ := List.mem_filter.1 hq
  obtain ⟨i, a⟩ := p
  obtain ⟨j, b⟩ := q
  have hget : l[i]? = some a := List.mk_mem_enum_iff_getElem?.1 hp1
  obtain ⟨hlen, hgetl⟩ := List.getElem?_eq_some_iff.1 hget
  have hidx : l.findIdx (dupPred b) = j := by simpa using hq2
  have hlt2 : i < l.findIdx (dupPred b) := by simp only [hidx]; exact hlt
  have := List.not_of_lt_findIdx hlt2
  rwa [hgetl] at this

theorem dedupSchools_sublist (l : List NCESSchoolFeatureAttributes) :
    (dedupSchools l).Sublist l := by
  unfold dedupSchools
  have h := List.Sublist.map Prod.snd
    (List.filter_sublist (l := l.enum) (p := fun p => l.findIdx (dupPred p.2) == p.1))
  rwa [List.enum_eq_enumFrom, List.enumFrom_map_snd] at h

/-! ### Concrete example inputs used by counterexamples and witnesses -/

/-- A raw feature whose school has no identifier (`NCESSCH` absent). -/
def exFeatureNoId : JSValue :=
  .obj 2 [("attributes",
    .obj 3 [("NAME", .str "X"), ("CITY", .str "Y"), ("STATE", .str "Z")])]

/-- A raw feature carrying `NCESSCH = "111"` and the same name/city/state. -/
def exFeatureWithId : JSValue :=
  .obj 4 [("attributes",
    .obj 5 [("NCESSCH", .str "111"), ("NAME", .str "X"), ("CITY", .str "Y"),
            ("STATE", .str "Z")])]

/-- A successful response body with the given features array. -/
def exBody (fs : List JSValue) : JSValue :=
  .obj 6 [("features", .arr 7 fs)]

/-- The normalization of `exFeatureNoId`. -/
def exRecNoId : NCESSchoolFeatureAttributes :=
  { NCESSCH := .str "", LEAID := .str "", NAME := .str "X", OPSTFIPS := .undefined,
    STREET := .str "", CITY := .str "Y", STATE := .str "Z", ZIP := .str "",
    CNTY := .undefined, NMCNTY := .undefined, LOCALE := .undefined,
    LAT := .undefined, LON := .undefined, OBJECTID := .undefined }

/-- The normalization of `exFeatureWithId`. -/
def exRecWithId : NCESSchoolFeatureAttributes :=
  { exRecNoId with NCESSCH := .str "111" }

/-! ### Claim C2 -/

/-- **C2, amended.**  For every list of normalized school records, the
deduplication stage of `searchSchools` preserves first-seen order (the output
is a sublist of the input); its output contains no two records sharing the
same truthy identifier (so the same `NCESSCH` from both sources yields
exactly one record), and no record lacking a truthy identifier that is
preceded in the output by ANY record — with or without an identifier —
sharing its name, city and state.  The (name, city, state) test is therefore
one-directed for mixed pairs: a later id-less duplicate of an identified
record is dropped, but a record WITHOUT an identifier followed by a record
WITH an identifier and identical (name, city, state) both survive — that is
where the original claim's "when either of the pair lacks an identifier"
fails, see `C2_counterexample`. -/
theorem C2_dedup_schools (l : List NCESSchoolFeatureAttributes) :
    (dedupSchools l).Sublist l ∧
    (dedupSchools l).Pairwise (fun a b =>
      (truthy a.NCESSCH && truthy b.NCESSCH && jsEq a.NCESSCH b.NCESSCH) = false ∧
      (!truthy b.NCESSCH &&
        (jsEq a.NAME b.NAME && jsEq a.CITY b.CITY && jsEq a.STATE b.STATE)) = false) := by
  refine ⟨dedupSchools_sublist l, (dedupSchools_pairwise l).imp ?_⟩
  intro a b h
  unfold dupPred at h
  by_cases hb : truthy b.NCESSCH = true
  · rw [if_pos hb] at h
    exact ⟨by simp [h], by simp [hb]⟩
  · rw [if_neg hb] at h
    have hb' : truthy b.NCESSCH = false := by simpa using hb
    exact ⟨by simp [hb'], by simp [h]⟩

/-- **C2, counterexample to the original claim.**  Merging a record without an
identifier (from one source) with a record carrying `NCESSCH = "111"` and the
very same name, city and state (from the other source), `searchSchools` keeps
BOTH: the claim's "no two records with identical (name, city, state) when
either of the pair lacks an identifier" is violated by this output pair. -/
theorem C2_counterexample :
    (searchSchools "X" none (.success (exBody [exFeatureNoId]))
        (.success (exBody [exFeatureWithId]))).1 = [exRecNoId, exRecWithId] ∧
    truthy exRecNoId.NCESSCH = false ∧
    truthy exRecWithId.NCESSCH = true ∧
    jsEq exRecNoId.NAME exRecWithId.NAME = true ∧
    jsEq exRecNoId.CITY exRecWithId.CITY = true ∧
    jsEq exRecNoId.STATE exRecWithId.STATE = true :=
  ⟨rfl, rfl, rfl, rfl, rfl, rfl⟩

/-! ### Claim C3 -/

/-- **C3, amended.**  For every query whose trimmed text has length < 2:
`searchSchoolDistricts` returns `[]` and issues no request, exactly as
claimed; `searchSchools` without a district filter, however, has no short-query
guard — it issues both requests with the degenerate filter `1=1` (the
short-text guard for the school field lives in the `Home` controller, which
clears results without calling `searchSchools`). -/
theorem C3_short_query (name : String) (d1 d2 s1 s2 : FetchOutcome)
    (h : (jsTrim name).length < 2) :
    searchSchoolDistricts name d1 d2 = ([], []) ∧
    (searchSchools name none s1 s2).2 =
      [⟨.priv, "1=1", 100⟩, ⟨.pub, "1=1", 100⟩] := by
  constructor
  · unfold searchSchoolDistricts
    rw [if_pos (Or.inr h)]
  · have hw : schoolWhereClause name none = "1=1" := by
      unfold schoolWhereClause
      have h2 : ¬ (jsTrim name).length ≥ 2 := by omega
      simp [h2]
    simp [searchSchools, hw]

theorem C3_short_query_witness :
    (jsTrim "a").length < 2 ∧
    (searchSchoolDistricts "a" .httpError .httpError = ([], []) ∧
      (searchSchools "a" none .httpError .httpError).2 =
        [⟨.priv, "1=1", 100⟩, ⟨.pub, "1=1", 100⟩]) :=
  ⟨by decide, C3_short_query "a" .httpError .httpError .httpError .httpError (by decide)⟩

/-- **C3, counterexample to the original claim.**  With the single-letter
query `"a"` and no district filter, `searchSchools` issues two network
requests (filter `1=1`) and, when a source responds with a school, returns a
non-empty list — the claim said it returns `[]` without any network call. -/
theorem C3_counterexample :
    (jsTrim "a").length < 2 ∧
    (searchSchools "a" none (.success (exBody [exFeatureWithId])) .abortError).1 =
      [exRecWithId] ∧
    (searchSchools "a" none (.success (exBody [exFeatureWithId])) .abortError).2 ≠ [] :=
  ⟨by decide, rfl, fun h => List.noConfusion h⟩

/-! ### Claim C4 -/

/-- A successful response whose body carries an empty features array. -/
def emptyOKBody : JSValue := .obj 8 [("features", .arr 8 [])]

/-- **C4 (confirmed).**  A source whose fetch fails — network error or
non-success response — is indistinguishable from a source successfully
returning zero features: the query never fails outright and the surviving
source's features are still normalized and returned (in either position, for
both `searchSchoolDistricts` and `searchSchools`). -/
theorem C4_partial_failure (name : String) (d : Option String)
    (fail other : FetchOutcome)
    (h : fail = .networkError ∨ fail = .httpError) :
    (searchSchools name d fail other).1 =
      (searchSchools name d (.success emptyOKBody) other).1 ∧
    (searchSchools name d other fail).1 =
      (searchSchools name d other (.success emptyOKBody)).1 ∧
    (searchSchoolDistricts name fail other).1 =
      (searchSchoolDistricts name (.success emptyOKBody) other).1 ∧
    (searchSchoolDistricts name other fail).1 =
      (searchSchoolDistricts name other (.success emptyOKBody)).1 := by
  have hf : featuresOf fail = some [] := by
    rcases h with h | h <;> subst h <;> rfl
  have he : featuresOf (.success emptyOKBody) = some [] := rfl
  refine ⟨?_, ?_, ?_, ?_⟩ <;>
    simp [searchSchools, searchSchoolDistricts, searchSchoolsBody,
      searchSchoolDistrictsBody, hf, he]

theorem C4_partial_failure_witness :
    ((FetchOutcome.networkError = FetchOutcome.networkError ∨
        FetchOutcome.networkError = FetchOutcome.httpError) ∧
      (searchSchools "ab" none .networkError (.success (exBody [exFeatureWithId]))).1 =
        (searchSchools "ab" none (.success emptyOKBody)
          (.success (exBody [exFeatureWithId]))).1) :=
  ⟨Or.inl rfl,
    (C4_partial_failure "ab" none .networkError
      (.success (exBody [exFeatureWithId])) (Or.inl rfl)).1⟩

/-! ### Claim C10 -/

/-- **C10, amended.**  Both query functions always resolve with an array and
never reject: the result is either the `try` body's list or, when the body
throws, the `catch`'s `[]`.  A source fetch aborted by the cancellation signal
contributes zero results exactly like a zero-feature success (in either
position), and when BOTH source fetches are aborted the call resolves with
`[]` — indistinguishable from a genuine zero-result response.  (The original
claim's "a request aborted via the cancellation signal resolves with the
empty array" fails when one source completed before the signal fired, see
`C10_counterexample`.) -/
theorem C10_resolution (name : String) (d : Option String)
    (o o2 : FetchOutcome) :
    ((searchSchools name d o o2).1 = [] ∨
      searchSchoolsBody o o2 = some (searchSchools name d o o2).1) ∧
    ((searchSchoolDistricts name o o2).1 = [] ∨
      searchSchoolDistrictsBody o o2 = some (searchSchoolDistricts name o o2).1) ∧
    (searchSchools name d .abortError o).1 =
      (searchSchools name d (.success emptyOKBody) o).1 ∧
    (searchSchools name d o .abortError).1 =
      (searchSchools name d o (.success emptyOKBody)).1 ∧
    (searchSchools name d .abortError .abortError).1 = [] ∧
    (searchSchoolDistricts name .abortError o).1 =
      (searchSchoolDistricts name (.success emptyOKBody) o).1 ∧
    (searchSchoolDistricts name o .abortError).1 =
      (searchSchoolDistricts name o (.success emptyOKBody)).1 ∧
    (searchSchoolDistricts name .abortError .abortError).1 = [] := by
  have ha : featuresOf .abortError = some [] := rfl
  have he : featuresOf (.success emptyOKBody) = some [] := rfl
  refine ⟨?_, ?_, ?_, ?_, ?_, ?_, ?_, ?_⟩
  · rcases hb : searchSchoolsBody o o2 with _ | l
    · exact Or.inl (by simp [searchSchools, hb])
    · exact Or.inr (by simp [searchSchools, hb])
  · rcases hb : searchSchoolDistrictsBody o o2 with _ | l
    · left
      unfold searchSchoolDistricts
      split <;> simp [hb]
    · by_cases hc : name = "" ∨ (jsTrim name).length < 2
      · exact Or.inl (by simp [searchSchoolDistricts, hc])
      · refine Or.inr ?_
        simp [searchSchoolDistricts, hc, hb]
  · simp [searchSchools, searchSchoolsBody, ha, he]
  · simp [searchSchools, searchSchoolsBody, ha, he]
  · rfl
  · unfold searchSchoolDistricts
    split
    · rfl
    · simp [searchSchoolDistrictsBody, ha, he]
  · unfold searchSchoolDistricts
    split
    · rfl
    · simp [searchSchoolDistrictsBody, ha, he]
  · unfold searchSchoolDistricts
    split <;> rfl

/-- **C10, counterexample to the original claim.**  If the private source's
fetch completed (one feature) before the cancellation signal aborted the
public source's fetch, the call resolves with that feature's record — not with
the empty array the claim requires for an aborted request. -/
theorem C10_counterexample :
    (searchSchools "ab" none (.success (exBody [exFeatureWithId])) .abortError).1 =
      [exRecWithId] ∧
    (searchSchools "ab" none (.success (exBody [exFeatureWithId])) .abortError).1 ≠ [] :=
  ⟨rfl, fun h => List.noConfusion h⟩

/-! ### Claim C7 -/

/-- **C7, amended.**  For every raw input other than `null`/`undefined` —
primitives, arrays, and objects of arbitrary shape — the two normalizers never
throw: every missing or malformed field yields an empty/undefined value in the
returned record.  (On `null`/`undefined` the very first property access throws
a `TypeError`, see `C7_counterexample`.)  The geometry argument may be
anything, including `null`/`undefined`: it is only accessed when truthy. -/
theorem C7_normalize_total (a g : JSValue) (ha : a ≠ .null)
    (hb : a ≠ .undefined) :
    (normalizeSchoolAttributes a g).isSome = true ∧
    (normalizeDistrictAttributes a).isSome = true := by
  constructor
  · unfold normalizeSchoolAttributes
    simp only [chainD_of_ne ha hb, getChain_of_ne ha hb, getField_of_ne ha hb,
      Option.bind_eq_bind, Option.some_bind]
    split
    case isTrue h =>
      have hg : truthy g = true := (Bool.and_eq_true_iff.mp h).2
      simp [getField_of_ne (ne_null_of_truthy hg) (ne_undef_of_truthy hg)]
    case isFalse h => simp
  · unfold normalizeDistrictAttributes
    simp [chainD_of_ne ha hb, getChain_of_ne ha hb, getField_of_ne ha hb]

/-- **C7, counterexample to the original claim.**  On the raw inputs `null`
and `undefined` (explicitly included by the claim) both normalizers throw:
`a.NAME` / `a.OBJECTID` raises a `TypeError` on a nullish receiver. -/
theorem C7_counterexample :
    normalizeSchoolAttributes .null .undefined = none ∧
    normalizeSchoolAttributes .undefined .undefined = none ∧
    normalizeDistrictAttributes .null = none ∧
    normalizeDistrictAttributes .undefined = none :=
  ⟨rfl, rfl, rfl, rfl⟩

theorem C7_normalize_total_witness :
    (JSValue.obj 20 [] ≠ JSValue.null) ∧
    ((normalizeSchoolAttributes (.obj 20 []) .undefined).isSome = true ∧
      (normalizeDistrictAttributes (.obj 20 [])).isSome = true) :=
  ⟨fun h => JSValue.noConfusion h,
    C7_normalize_total (.obj 20 []) .undefined (fun h => JSValue.noConfusion h)
      (fun h => JSValue.noConfusion h)⟩

/-! ### Claim C8 -/

/-- **C8, amended.**  Latitude/longitude resolution tries the explicit
attribute fields first, and geometry is not consulted when BOTH attribute
coordinates are truthy (then neither is overwritten).  But the fallback is
per-call, not per-coordinate: as soon as EITHER coordinate is falsy (and a
truthy geometry is supplied), BOTH coordinates take the geometry's `y`/`x`
when truthy — so an attribute coordinate can be overwritten by geometry when
the other coordinate is absent (see `C8_counterexample`). -/
theorem C8_latlon (a g : JSValue) (ha : a ≠ .null) (hb : a ≠ .undefined) :
    (normalizeSchoolAttributes a g).map (fun r => (r.LAT, r.LON)) =
      some (latlonSpec a g) := by
  unfold normalizeSchoolAttributes latlonSpec
  simp only [chainD_of_ne ha hb, getChain_of_ne ha hb, getField_of_ne ha hb,
    Option.bind_eq_bind, Option.some_bind]
  split
  case isTrue h =>
    have hg : truthy g = true := (Bool.and_eq_true_iff.mp h).2
    cases hL : truthy (chainVal a ["LAT", "Y", "lat", "latitude"]) <;>
      cases hM : truthy (chainVal a ["LON", "X", "lon", "longitude"]) <;>
      simp_all [getField_of_ne (ne_null_of_truthy hg) (ne_undef_of_truthy hg)]
  case isFalse h =>
    cases hG : truthy g <;>
      cases hL : truthy (chainVal a ["LAT", "Y", "lat", "latitude"]) <;>
      cases hM : truthy (chainVal a ["LON", "X", "lon", "longitude"]) <;>
      simp_all

/-- Raw attributes with a longitude but no latitude. -/
def exRawLon : JSValue := .obj 12 [("LON", .num 5)]

/-- A geometry point with both coordinates. -/
def exGeom : JSValue := .obj 13 [("x", .num 9), ("y", .num 7)]

/-- **C8, counterexample to the original claim.**  The attributes carry a
truthy longitude (`LON = 5`) but no latitude; with a geometry supplied, the
returned record has `LON = 9` (the geometry's `x`) — the coordinate that WAS
present in the attributes has been overwritten. -/
theorem C8_counterexample :
    chainVal exRawLon ["LON", "X", "lon", "longitude"] = .num 5 ∧
    truthy (.num 5) = true ∧
    (normalizeSchoolAttributes exRawLon exGeom).map (fun r => (r.LAT, r.LON)) =
      some (.num 7, .num 9) ∧
    (9 : Int) ≠ 5 :=
  ⟨rfl, rfl, rfl, by decide⟩

theorem C8_latlon_witness :
    (normalizeSchoolAttributes exRawLon exGeom).map (fun r => (r.LAT, r.LON)) =
      some (latlonSpec exRawLon exGeom) :=
  C8_latlon exRawLon exGeom (fun h => JSValue.noConfusion h)
    (fun h => JSValue.noConfusion h)

/-! ### Claim C9 -/

/-- **C9, amended.**  The normalized district name is the first truthy value
among the source name fields `DISTRICT`, `LEA_NAME`, `LEANM`; when none is
present the name falls back to the synthesized label `District {LEAID}`,
where the id is the raw `LEAID` attribute when truthy and the literal
`"Unknown"` otherwise.  (The fallback does NOT consult the `LEA_ID`/`LEA`
fields used for the record's identifier, so the label can read
`District Unknown` even when the record has an identifier — see
`C9_counterexample`.) -/
theorem C9_district_name (a : JSValue) (ha : a ≠ .null) (hb : a ≠ .undefined) :
    (normalizeDistrictAttributes a).map (fun r => r.NAME) =
      some (districtNameSpec a) := by
  unfold normalizeDistrictAttributes districtNameSpec
  simp only [chainD_of_ne ha hb, getChain_of_ne ha hb, getField_of_ne ha hb,
    Option.bind_eq_bind, Option.some_bind]
  cases h1 : truthy (fieldOf a "DISTRICT") <;>
    cases h2 : truthy (fieldOf a "LEA_NAME") <;>
    cases h3 : truthy (fieldOf a "LEANM") <;>
    cases h4 : truthy (fieldOf a "LEAID") <;>
    simp_all [chainVal, jsOr, jsToString, List.find?]

/-- Raw district attributes whose identifier comes from `LEA_ID`. -/
def exRawDistrict : JSValue := .obj 14 [("LEA_ID", .str "99")]

/-- **C9, counterexample to the original claim.**  With no source name field
and the identifier provided by `LEA_ID = "99"`, the record's identifier is
`"99"` but the synthesized label is `District Unknown` — it does not contain
the district identifier as the claim's `"District {id}"` requires. -/
theorem C9_counterexample :
    (normalizeDistrictAttributes exRawDistrict).map (fun r => r.NAME) =
      some (.str "District Unknown") ∧
    (normalizeDistrictAttributes exRawDistrict).map (fun r => r.LEAID) =
      some (.str "99") ∧
    ("District Unknown" : String) ≠ "District " ++ "99" := by
  refine ⟨?_, rfl, by decide⟩
  have h1 : (normalizeDistrictAttributes exRawDistrict).map (fun r => r.NAME) =
      some (.str ("District " ++ jsToString (jsOr .undefined (.str "Unknown")))) := rfl
  rw [h1]
  simp [jsOr, truthy, jsToString]

/-- Raw district attributes with a name field and a `LEAID`. -/
def exRawDistrictNamed : JSValue :=
  .obj 15 [("DISTRICT", .str "D1"), ("LEAID", .str "7")]

theorem C9_district_name_witness :
    (normalizeDistrictAttributes exRawDistrictNamed).map (fun r => r.NAME) =
      some (districtNameSpec exRawDistrictNamed) :=
  C9_district_name exRawDistrictNamed (fun h => JSValue.noConfusion h)
    (fun h => JSValue.noConfusion h)

/-! ### Claim C5 -/

/-- **C5, amended.**  Every district-selection change clears the school
selection unconditionally and evicts the school-cache entry for the
(NEW-filter, current-text) key, so the next school query under the new filter
performs a fresh fetch; all other cache entries — including the
(old-filter, current-text) entry named by the original claim — are left
untouched (see `C5_counterexample`). -/
theorem C5_district_change (st : HomeState) (leaId : String) :
    (handleDistrictChange st leaId).selectedSchool = none ∧
    (handleDistrictChange st leaId).schoolCache =
      st.schoolCache.filter (fun p => !(p.1 == newSchoolCacheKey st leaId)) ∧
    ((handleDistrictChange st leaId).schoolCache.lookup
      (newSchoolCacheKey st leaId)) = none := by
  have h2 : (handleDistrictChange st leaId).schoolCache =
      st.schoolCache.filter (fun p => !(p.1 == newSchoolCacheKey st leaId)) := by
    unfold handleDistrictChange
    by_cases hc :
        (st.schoolCache.lookup (newSchoolCacheKey st leaId)).isSome = true
    · simp only [hc, if_true]
    · have hn : st.schoolCache.lookup (newSchoolCacheKey st leaId) = none :=
        Option.not_isSome_iff_eq_none.mp (by simpa using hc)
      simp only [hc, if_false]
      exact (filter_eq_of_lookup_none hn).symm
  refine ⟨rfl, h2, ?_⟩
  rw [h2]
  exact lookup_filter_self _ _

/-- An example district with identifier `"100"`. -/
def exDistrict100 : NCESDistrictFeatureAttributes :=
  { OBJECTID := .undefined, LEAID := .str "100", NAME := .str "D100",
    LSTREE := .str "", LCITY := .str "", LSTATE := .str "", LZIP := .str "",
    LZIP4 := .undefined, STFIP15 := .undefined, CNTY15 := .undefined, NMCNTY15 := .undefined,
    LAT1516 := .undefined, LON1516 := .undefined, ST := .str "" }

/-- An example district with identifier `"200"`. -/
def exDistrict200 : NCESDistrictFeatureAttributes :=
  { exDistrict100 with LEAID := .str "200", NAME := .str "D200" }

/-- A `Home` state with district `"100"` selected, school text `"ab"`, and
cached school lists for both the old key `100-ab` and the new key `200-ab`. -/
def exHomeState : HomeState :=
  { districts := [exDistrict100, exDistrict200],
    selectedDistrict := some exDistrict100,
    selectedSchool := some exRecWithId,
    schoolCache := [("100-ab", [exRecWithId]), ("200-ab", [exRecNoId])],
    debouncedSchoolQuery := "ab" }

/-- **C5, counterexample to the original claim.**  Switching the selection
from district `"100"` to `"200"` with school text `"ab"` deletes the cache
entry under the NEW key `200-ab` and leaves the (old-filter, current-text)
entry `100-ab` cached — the original claim says exactly the `100-ab` entry is
invalidated. -/
theorem C5_counterexample :
    exHomeState.selectedDistrict = some exDistrict100 ∧
    exDistrict100.LEAID = .str "100" ∧
    (handleDistrictChange exHomeState "200").schoolCache.lookup "100-ab" =
      some [exRecWithId] ∧
    (handleDistrictChange exHomeState "200").schoolCache.lookup "200-ab" =
      none ∧
    (handleDistrictChange exHomeState "200").selectedDistrict =
      some exDistrict200 :=
  ⟨rfl, rfl, rfl, rfl, rfl⟩

/-! ### Claim C6 -/

/-- **C6, amended.**  When a school fetch settles un-aborted with a school
selected beforehand, the controller keeps the selection iff some record of the
new result set has a strictly-equal `NCESSCH` (including the case where both
identifiers are empty) OR an equal name and city — the name+city match is
attempted regardless of whether identifiers are present, unlike the original
claim's "by name+city only when the identifier is absent"
(see `C6_counterexample`). -/
theorem C6_selection_reconcile (st : SchoolQueryState) (t : Nat) (key : String)
    (payload : List NCESSchoolFeatureAttributes)
    (sel : NCESSchoolFeatureAttributes)
    (hab : st.aborted.contains t = false)
    (hsel : st.selectedSchool = some sel) :
    (schoolStep st (.settle t key payload)).selectedSchool =
      (if payload.any (stillExistsMatch sel) then some sel else none) := by
  show applySchoolFetchSelection st.selectedSchool
      (if st.aborted.contains t then [] else payload) =
    (if payload.any (stillExistsMatch sel) then some sel else none)
  rw [hab, hsel]
  rfl

/-- The previously selected school: identifier `"1"`, name `X`, city `Y`. -/
def exSel : NCESSchoolFeatureAttributes :=
  { exRecNoId with NCESSCH := .str "1" }

/-- A different school: identifier `"2"`, same name and city. -/
def exOther : NCESSchoolFeatureAttributes :=
  { exRecNoId with NCESSCH := .str "2" }

/-- A school-pipeline state with `exSel` selected and query `5` in flight. -/
def exQState : SchoolQueryState :=
  { schools := [], schoolCache := [], selectedSchool := some exSel,
    activeToken := some 5, aborted := [] }

/-- **C6, counterexample to the original claim.**  The fetched list contains
only a school with the DIFFERENT identifier `"2"`; by the claim's matcher
(identifier first, name+city only when the identifier is absent) the selection
no longer appears and must be cleared — but the controller keeps it, because
its disjunctive test also matches by name+city when identifiers differ. -/
theorem C6_counterexample :
    (schoolStep exQState (.settle 5 "all-x" [exOther])).selectedSchool =
      some exSel ∧
    claimMatch exSel exOther = false ∧
    truthy exSel.NCESSCH = true ∧
    truthy exOther.NCESSCH = true :=
  ⟨rfl, rfl, rfl, rfl⟩

theorem C6_selection_reconcile_witness :
    (exQState.aborted.contains 5 = false ∧
      exQState.selectedSchool = some exSel) ∧
    (schoolStep exQState (.settle 5 "all-x" [exOther])).selectedSchool =
      (if [exOther].any (stillExistsMatch exSel) then some exSel else none) :=
  ⟨⟨rfl, rfl⟩, C6_selection_reconcile exQState 5 "all-x" [exOther] exSel rfl rfl⟩

/-! ### Claim C1 -/

/-- The initial school-pipeline state for the supersession trace: some
earlier results are visible, the cache is empty, nothing is in flight. -/
def exInitQState : SchoolQueryState :=
  { schools := [exRecWithId], schoolCache := [], selectedSchool := none,
    activeToken := none, aborted := [] }

/-- **C1 (code bug).**  Query `0` (key `all-ab`) is superseded by query `1`
(key `all-abc`), so query `0`'s cancellation is requested (`aborted` contains
`0`).  Yet when query `0`'s promise settles — `searchSchools` swallows the
`AbortError` and RESOLVES with `[]` instead of rejecting — the `.then` handler
runs and applies the cancelled query's result to state: the visible list is
overwritten with `[]` and, worse, `[]` is cached under the superseded key
`all-ab`, to be served on any future `ab` query.  The `AbortError` guard in
the controller's `.catch` is dead code.  This contradicts the claim (and the
spec's ordering guarantee), which requires such a result to be discarded. -/
theorem C1_cancelled_result_applied :
    (runSchoolEvents exInitQState
      [.start 0 "all-ab", .start 1 "all-abc"]).aborted.contains 0 = true ∧
    (runSchoolEvents exInitQState
      [.start 0 "all-ab", .start 1 "all-abc",
        .settle 0 "all-ab" [exRecNoId]]).schoolCache.lookup "all-ab" =
      some [] ∧
    (runSchoolEvents exInitQState
      [.start 0 "all-ab", .start 1 "all-abc",
        .settle 0 "all-ab" [exRecNoId]]).schools = [] ∧
    (runSchoolEvents exInitQState
      [.start 0 "all-ab", .start 1 "all-abc"]).schools = [exRecWithId] ∧
    (runSchoolEvents exInitQState
      [.start 0 "all-ab", .start 1 "all-abc"]).schoolCache.lookup "all-ab" =
      none :=
  ⟨rfl, rfl, rfl, rfl, rfl⟩

end NCES
